import Mathlib

/-!
# Verification of the orchestrator rollout engine (nixmade/orchestrator, core package)

A shallow embedding of the per-entity rollout decision engine: the data model
(ClientState, EntityTarget, Rollout state), the per-tick bucketing of targets
into available / in-rollout / success / failed sets, last-known-good and
last-known-bad version tracking, batch selection, and the engine facade
operations (setTargetVersion, orchestrate tick, findorCreateEntity).

The repository ships the core package's test files, web handlers and README,
but not the core implementation itself (rollout.go, engine.go, entity.go,
namespace.go).  Every operation below is therefore modelled from the
specification, with the shipped unit tests (entity_test / rollout behaviour
tests) as the authority wherever they pin concrete behaviour.  Each modelled
definition's doc comment records what is missing and which spec sentences and
tests it follows.  Time is modelled as natural-number seconds.
-/

/-- Last message of a target's current version: the last observed free-text
message, error flag, and the time that pair last changed. -/
structure LastMessage where
  Message : String
  IsError : Bool
  Timestamp : Nat
deriving DecidableEq, Repr

/-- Current version record of an EntityTarget: observed version, the time the
observed version last changed, and the last message. -/
structure CurrentVersionInfo where
  Version : String
  ChangeTimestamp : Nat
  LastMessage : LastMessage
deriving DecidableEq, Repr

/-- Target version record of an EntityTarget: the version the engine wants the
target to be driven to. -/
structure TargetVersionInfo where
  Version : String
deriving DecidableEq, Repr

/-- Persisted state of an EntityTarget. -/
structure EntityTargetState where
  CurrentVersion : CurrentVersionInfo
  TargetVersion : TargetVersionInfo
deriving DecidableEq, Repr

/-- A persisted per-target record, keyed by (group, name) within an entity. -/
structure EntityTarget where
  Name : String
  Group : String
  State : EntityTargetState
deriving DecidableEq, Repr

/-- Wire-level client report: name, group, observed version, message, error flag. -/
structure ClientState where
  Name : String
  Group : String
  Version : String
  Message : String
  IsError : Bool
deriving DecidableEq, Repr

/-- Rollout policy options; percentages are integers 0-100, timeouts in seconds. -/
structure RolloutOptions where
  BatchPercent : Nat
  SuccessPercent : Nat
  SuccessTimeoutSecs : Nat
  DurationTimeoutSecs : Nat
deriving DecidableEq, Repr

/-- Default rollout options, as documented in the repository README:
BatchPercent 10, SuccessPercent 100, SuccessTimeoutSecs 900,
DurationTimeoutSecs 3600. -/
def DefaultRolloutOptions : RolloutOptions :=
  ⟨10, 100, 900, 3600⟩

/-- Persisted per-entity rollout state: desired version, the version currently
being pushed, last-known-good and last-known-bad markers, options, and the time
the rolling version was last (re)assigned. -/
structure RolloutState where
  TargetVersion : String
  RollingVersion : String
  LastKnownGoodVersion : String
  LastKnownBadVersion : String
  Options : RolloutOptions
  StartTimestamp : Nat
deriving DecidableEq, Repr

/-- The bucketed per-tick view of an entity's targets (Go `rolloutInfo`). -/
structure RolloutInfo where
  totalTargets : List EntityTarget
  availableTargets : List EntityTarget
  inRolloutTargets : List EntityTarget
  successTargets : List EntityTarget
  failedTargets : List EntityTarget
deriving DecidableEq, Repr

/-- Modelled from the spec: `createRolloutInfo` (missing core implementation)
builds a fresh bucketed view with all entity targets as the total set and
every other bucket empty, as used by all rollout unit tests. -/
def createRolloutInfo (targets : List EntityTarget) : RolloutInfo :=
  ⟨targets, [], [], [], []⟩

/-- Modelled from the spec: creation of an entity target on first observation
(missing `findOrCreateEntityTarget`).  The current version snapshots the
report; the target version is initialised to the observed version (required
for the first tick of the shipped rollout tests, where fresh targets must be
batch candidates and the response for unselected targets is the reported
version). -/
def createEntityTarget (now : Nat) (cs : ClientState) : EntityTarget :=
  ⟨cs.Name, cs.Group, ⟨⟨cs.Version, now, ⟨cs.Message, cs.IsError, now⟩⟩, ⟨cs.Version⟩⟩⟩

/-- Modelled from the spec: merging one incoming ClientState into its existing
EntityTarget (missing `updateEntityTargets`, spec section 4.1 step 1):
ChangeTimestamp advances iff the observed Version changed; LastMessage's
Timestamp advances iff Message or IsError changed; identical reports are
no-ops (TestUpdateEntityTargets). -/
def updateEntityTarget (now : Nat) (t : EntityTarget) (cs : ClientState) : EntityTarget :=
  let cur := t.State.CurrentVersion
  let changeTs := if cs.Version = cur.Version then cur.ChangeTimestamp else now
  let msgTs :=
    if cs.Message = cur.LastMessage.Message ∧ cs.IsError = cur.LastMessage.IsError then
      cur.LastMessage.Timestamp
    else now
  { t with State := { t.State with
      CurrentVersion := ⟨cs.Version, changeTs, ⟨cs.Message, cs.IsError, msgTs⟩⟩ } }

/-- Does the entity target match the (group, name) key of the report? -/
def matchesClient (cs : ClientState) (t : EntityTarget) : Bool :=
  t.Name == cs.Name && t.Group == cs.Group

/-- Modelled from the spec: merge a batch of incoming ClientStates into the
entity target list (missing `updateEntityTargets`): each report updates the
targets with its (group, name) key, or creates a new target on first
observation. -/
def updateEntityTargets (now : Nat) (targets : List EntityTarget)
    (clients : List ClientState) : List EntityTarget :=
  clients.foldl (fun acc cs =>
    if acc.any (matchesClient cs) then
      acc.map (fun t => if matchesClient cs t then updateEntityTarget now t cs else t)
    else acc ++ [createEntityTarget now cs]) targets

/-- Modelled from the spec: the response built from the persisted targets
(missing `returnClientState`): one ClientState per target whose Version is the
target's persisted TargetVersion (spec section 4.1 step 8,
TestReturnClientState); message and error flag echo the stored last message. -/
def returnClientState (targets : List EntityTarget) : List ClientState :=
  targets.map (fun t =>
    ⟨t.Name, t.Group, t.State.TargetVersion.Version,
     t.State.CurrentVersion.LastMessage.Message,
     t.State.CurrentVersion.LastMessage.IsError⟩)

/-- Modelled from the spec: the in-rollout test of `determineCurrentState`
(missing implementation).  A target is in rollout when the rolling version is
the (non-empty) last known bad version (spec: "If RollingVersion equals LKB,
treat every target as in-rollout"), or it was told to move to the rolling
version but has not reported it, or it is erroring (required so that
monitoring can fail erroring targets, TestMonitorTargets third phase). -/
def inRolloutTest (r : RolloutState) (t : EntityTarget) : Bool :=
  (r.LastKnownBadVersion != "" && r.RollingVersion == r.LastKnownBadVersion)
    || (t.State.TargetVersion.Version == r.RollingVersion
          && t.State.CurrentVersion.Version != r.RollingVersion)
    || t.State.CurrentVersion.LastMessage.IsError

/-- Modelled from the spec: `determineCurrentState` buckets the total targets
into in-rollout targets and available targets.  Available targets are the
non-erroring targets that are not in rollout; the shipped
TestDetermineCurrentState and TestSelectTargets require that availability does
NOT demand that the current version equal the rolling version (all targets at
the last known good version are available when a new version is rolling). -/
def determineCurrentState (r : RolloutState) (info : RolloutInfo) : RolloutInfo :=
  { info with
    inRolloutTargets := info.totalTargets.filter (fun t => inRolloutTest r t)
    availableTargets := info.totalTargets.filter (fun t => !(inRolloutTest r t)) }

/-- Modelled from the spec: the success test of `monitorTargets` (missing
implementation, spec section 4.1 step 3): a monitored target converts to
success once it reports the rolling version without error and its last message
is at least SuccessTimeoutSecs old.  The rolling-version requirement keeps
targets that were never told to move from counting toward completion. -/
def successTest (now : Nat) (r : RolloutState) (t : EntityTarget) : Bool :=
  t.State.CurrentVersion.Version == r.RollingVersion
    && !t.State.CurrentVersion.LastMessage.IsError
    && decide (r.Options.SuccessTimeoutSecs ≤ now - t.State.CurrentVersion.LastMessage.Timestamp)

/-- Modelled from the spec: the failure test of `monitorTargets` (spec section
4.1 step 3): a monitored target fails when it is erroring (or external
monitoring reports error) and at least DurationTimeoutSecs have elapsed since
the rolling version was assigned. -/
def failureTest (now : Nat) (r : RolloutState) (extMonitorError : Bool)
    (t : EntityTarget) : Bool :=
  (t.State.CurrentVersion.LastMessage.IsError || extMonitorError)
    && decide (r.Options.DurationTimeoutSecs ≤ now - r.StartTimestamp)

/-- Modelled from the spec: `monitorTargets` (missing implementation)
re-buckets the monitored targets (available and in-rollout): converged stable
targets become success targets and return to the available pool (spec: "On
conversion, the target moves from in-rollout to available"); erroring targets
past the duration timeout move to failed targets; everything else is (or
stays) in rollout, as required by the three phases of TestMonitorTargets. -/
def monitorTargets (now : Nat) (r : RolloutState) (extMonitorError : Bool)
    (info : RolloutInfo) : RolloutInfo :=
  let pool := info.availableTargets ++ info.inRolloutTargets
  let succ := pool.filter (fun t => successTest now r t)
  let rest := pool.filter (fun t => !(successTest now r t))
  { info with
    availableTargets := succ
    successTargets := info.successTargets ++ succ
    failedTargets := info.failedTargets ++ rest.filter (fun t => failureTest now r extMonitorError t)
    inRolloutTargets := rest.filter (fun t => !(failureTest now r extMonitorError t)) }

/-- Modelled from the spec: `updateLastKnownVersions` (missing implementation,
spec section 4.1 step 4, pinned by TestUpdateLastKnownVersions): if nothing
failed, nothing is still in rollout, and every total target succeeded, the
rolling version becomes last known good (clearing last known bad if it was the
rolling version); if at least one target failed and the success ratio is below
SuccessPercent, the rolling version becomes last known bad. -/
def updateLastKnownVersions (r : RolloutState) (info : RolloutInfo) : RolloutState :=
  if info.failedTargets.length = 0 ∧ info.inRolloutTargets.length = 0 ∧
      info.successTargets.length = info.totalTargets.length then
    if r.RollingVersion = r.LastKnownGoodVersion then r
    else
      { r with
        LastKnownGoodVersion := r.RollingVersion
        LastKnownBadVersion :=
          if r.LastKnownBadVersion = r.RollingVersion then "" else r.LastKnownBadVersion }
  else if 0 < info.failedTargets.length ∧
      info.successTargets.length * 100 < r.Options.SuccessPercent * info.totalTargets.length then
    { r with LastKnownBadVersion := r.RollingVersion }
  else r

/-- Modelled from the spec: the effective goal version (spec section 3
invariant: "If TargetVersion == LKB, the effective goal becomes LKG"). -/
def effectiveTargetVersion (r : RolloutState) : String :=
  if r.TargetVersion = r.LastKnownBadVersion then r.LastKnownGoodVersion else r.TargetVersion

/-- Modelled from the spec: `updateRollingVersion` (missing implementation,
spec section 4.1 step 5, pinned by TestUpdateRollingVersion and
TestForceRollingVersion): if the rolling version already equals the effective
goal nothing changes; otherwise the rolling version advances to the effective
goal - and the start timestamp resets - when the engine is at rest (rolling
version equals last known good), the rolling version was judged bad, or the
current phase completed with every target succeeding. -/
def updateRollingVersion (now : Nat) (r : RolloutState) (info : RolloutInfo) : RolloutState :=
  if r.RollingVersion = effectiveTargetVersion r then r
  else if r.RollingVersion = r.LastKnownGoodVersion ∨
      r.RollingVersion = r.LastKnownBadVersion ∨
      (info.failedTargets.length = 0 ∧ info.inRolloutTargets.length = 0 ∧
        info.successTargets.length = info.totalTargets.length) then
    { r with RollingVersion := effectiveTargetVersion r, StartTimestamp := now }
  else r

/-- Modelled from the spec: `setTargetVersion` (missing implementation, spec
section 4.2 and error kind Conflict in section 7): setting the target version
to the last known bad version without force is a conflict error; with force,
if the current rolling version differs from the requested version, the current
rolling version is marked last known bad (TestForceRollingVersion). -/
def setTargetVersion (r : RolloutState) (version : String) (force : Bool) :
    Except String RolloutState :=
  if force = false ∧ version = r.LastKnownBadVersion ∧ version ≠ "" then
    Except.error "conflict: version is marked last known bad"
  else
    let base := { r with TargetVersion := version }
    if force = true ∧ r.RollingVersion ≠ version then
      Except.ok { base with LastKnownBadVersion := r.RollingVersion }
    else Except.ok base

/-- Modelled from the spec: the batch size of one selection round (spec
section 4.1 step 6, corrected to the spec's own literal scenario "3 targets,
BatchPercent 34: after tick 1 exactly 1 target has TargetVersion v2"):
`max 1 (totalTargets * BatchPercent / 100)` with flooring integer division. -/
def batchSize (total : Nat) (batchPercent : Nat) : Nat :=
  max 1 (total * batchPercent / 100)

/-- Modelled from the spec: the candidates considered by batch selection - the
available targets not already at the rolling version ("candidates to be moved
to the next batch"; without this restriction the idempotence requirement of
spec section 4.1, state-change detection, could not hold). -/
def selectionCandidates (r : RolloutState) (info : RolloutInfo) : List EntityTarget :=
  info.availableTargets.filter
    (fun t => t.State.CurrentVersion.Version != r.RollingVersion)

/-- Modelled from the spec: `selectTargets` (missing implementation, spec
section 4.1 step 6, pinned by TestSelectTargets): move candidates from the
available bucket into the in-rollout bucket until the in-rollout count reaches
the batch size or no candidate remains.  The no-op controller selects
candidates in order and approves all of them. -/
def selectTargets (r : RolloutState) (info : RolloutInfo) : RolloutInfo :=
  let bs := batchSize info.totalTargets.length r.Options.BatchPercent
  let moved := (selectionCandidates r info).take (bs - info.inRolloutTargets.length)
  { info with
    availableTargets := info.availableTargets.filter (fun t => decide (t ∉ moved))
    inRolloutTargets := info.inRolloutTargets ++ moved }

/-- Overwrite the persisted target version of one entity target. -/
def assignTargetVersion (version : String) (t : EntityTarget) : EntityTarget :=
  { t with State := { t.State with TargetVersion := ⟨version⟩ } }

/-- Modelled from the spec: `rolloutNewTargets` (missing implementation,
pinned by TestRollouNewTargets): assign the rolling version as the target
version of every target in the in-rollout bucket, reflecting the assignment in
the total target list (Go shares the target records between buckets). -/
def rolloutNewTargets (r : RolloutState) (info : RolloutInfo) : RolloutInfo :=
  { info with
    inRolloutTargets := info.inRolloutTargets.map (assignTargetVersion r.RollingVersion)
    totalTargets := info.totalTargets.map (fun t =>
      if info.inRolloutTargets.any (fun m => m.Name == t.Name && m.Group == t.Group) then
        assignTargetVersion r.RollingVersion t
      else t) }

/-- Modelled from the spec: `setAllLastKnownGood` (missing implementation,
pinned by TestSetAllLastKnownGood): mark the rolling version as last known
good and assign it as every target's target version. -/
def setAllLastKnownGood (r : RolloutState) (targets : List EntityTarget) :
    RolloutState × List EntityTarget :=
  ({ r with LastKnownGoodVersion := r.RollingVersion },
   targets.map (assignTargetVersion r.RollingVersion))

/-- Modelled from the spec: `isStateChanged` (missing implementation, pinned
by TestIsStateChanged): the tick changed state - and must persist - exactly
when targets failed or are in rollout; a fully converged, fully successful
view reports no change. -/
def isStateChanged (info : RolloutInfo) : Bool :=
  !info.failedTargets.isEmpty || !info.inRolloutTargets.isEmpty

/-- Result of one orchestrate tick: the response returned to the caller, the
rollout state and target records after the tick, and whether the tick wrote to
the store. -/
structure TickResult where
  response : List ClientState
  rollout : RolloutState
  targets : List EntityTarget
  storeWrites : Bool
deriving DecidableEq, Repr

/-- Modelled from the spec: the decision part of one `Orchestrate` tick, run
on the already-merged target view `targets1` (spec section 4.1 steps 2-8):
bucket targets, monitor, update last known versions, advance the rolling
version, select a new batch assigning the rolling version to the selected
targets, and emit the response; the store is written only when something
changed relative to the persisted `targets0` and `r`. -/
def orchestrateFrom (now : Nat) (r : RolloutState) (targets0 targets1 : List EntityTarget) :
    TickResult :=
  let info1 := determineCurrentState r (createRolloutInfo targets1)
  let info2 := monitorTargets now r false info1
  let r1 := updateLastKnownVersions r info2
  let r2 := updateRollingVersion now r1 info2
  let info3 := selectTargets r2 info2
  let moved := (selectionCandidates r2 info2).take
    (batchSize info2.totalTargets.length r2.Options.BatchPercent - info2.inRolloutTargets.length)
  let targets2 := targets1.map (fun t =>
    if moved.any (fun m => m.Name == t.Name && m.Group == t.Group) then
      assignTargetVersion r2.RollingVersion t
    else t)
  let writes := isStateChanged info3 || decide (r2 ≠ r) || decide (targets2 ≠ targets0)
  ⟨returnClientState targets2, r2, targets2, writes⟩

/-- Modelled from the spec: one `Orchestrate` tick (missing implementation,
spec section 4.1 algorithm): merge the callers' observations into the
persisted targets, then run the decision steps on the merged view. -/
def orchestrateTick (now : Nat) (r : RolloutState) (targets : List EntityTarget)
    (clients : List ClientState) : TickResult :=
  orchestrateFrom now r targets (updateEntityTargets now targets clients)

/-- An entity: a rollout unit inside a namespace, carrying its rollout state. -/
structure Entity where
  Name : String
  Rollout : RolloutState
deriving DecidableEq, Repr

/-- Modelled from the spec: a freshly created entity with an empty rollout
state and default options. -/
def newEntity (entityName : String) : Entity :=
  ⟨entityName, ⟨"", "", "", "", DefaultRolloutOptions, 0⟩⟩

/-- A namespace: a named collection of entities. -/
structure Namespace where
  Name : String
  entities : List Entity
deriving DecidableEq, Repr

/-- Modelled from the spec: `findorCreateEntity` (missing implementation,
spec section 3 lifecycle "entities are lazily created on first reference",
pinned by TestFindorCreateEntity): return the existing entity with the given
name, or append a fresh one. -/
def findorCreateEntity (n : Namespace) (entityName : String) : Namespace × Entity :=
  match n.entities.find? (fun e => e.Name == entityName) with
  | some e => (n, e)
  | none =>
    let e := newEntity entityName
    ({ n with entities := n.entities ++ [e] }, e)

/-- The spec's invariant: last known good and last known bad, when both
non-empty, are different versions. -/
def lkgLkbDistinct (r : RolloutState) : Prop :=
  r.LastKnownGoodVersion ≠ "" → r.LastKnownBadVersion ≠ "" →
    r.LastKnownGoodVersion ≠ r.LastKnownBadVersion

/-- A healthy target that reported version `v1` and was last told `v1`,
mirroring the targets of TestDetermineCurrentState. -/
def bucketDemoTarget : EntityTarget :=
  ⟨"clientTarget0", "", ⟨⟨"v1", 0, ⟨"running successfully", false, 0⟩⟩, ⟨"v1"⟩⟩⟩

/-- Rollout state of TestDetermineCurrentState after the rolling version moved
to `v5` with last known good `v1`. -/
def bucketDemoRollout : RolloutState :=
  ⟨"", "v5", "v1", "", DefaultRolloutOptions, 0⟩

/-- The rollout state of TestUpdateLastKnownVersions: rolling `v2`, last known
good `v1`, no last known bad. -/
def lkvDemoRollout : RolloutState :=
  ⟨"", "v2", "v1", "", DefaultRolloutOptions, 0⟩

/-- A bucketed view in which the single target succeeded. -/
def lkvDemoSuccess : RolloutInfo :=
  ⟨[bucketDemoTarget], [], [], [bucketDemoTarget], []⟩

/-- A bucketed view in which the single target failed. -/
def lkvDemoFailed : RolloutInfo :=
  ⟨[bucketDemoTarget], [], [], [], [bucketDemoTarget]⟩

/-- A target that was driven to `v2` and reports it without error. -/
def staleDemoTarget : EntityTarget :=
  ⟨"clientTarget0", "", ⟨⟨"v2", 0, ⟨"running successfully", false, 0⟩⟩, ⟨"v2"⟩⟩⟩

/-- A rollout state whose target version equals the non-empty last known good
version `v1`. -/
def staleDemoRollout : RolloutState :=
  ⟨"v1", "v1", "v1", "", DefaultRolloutOptions, 0⟩

/-- One report observed at a changed version, used to exercise the timestamp
rules of updateEntityTarget. -/
def mergeDemoClient : ClientState :=
  ⟨"clientTarget0", "", "v2", "running successfully", false⟩

/-- Ten healthy targets at `v1`, mirroring the setup of TestSelectTargets. -/
def selectDemoTargets : List EntityTarget :=
  (List.range 10).map (fun i =>
    ⟨"clientTarget" ++ toString i, "",
     ⟨⟨"v1", 0, ⟨"running successfully", false, 0⟩⟩, ⟨"v1"⟩⟩⟩)

/-- Rollout state of TestSelectTargets: rolling `v2`, last known good `v1`,
batch percent 50. -/
def selectDemoRollout : RolloutState :=
  ⟨"", "v2", "v1", "", ⟨50, 100, 900, 3600⟩, 0⟩

/-- Three healthy targets at `v1`, mirroring the spec's literal three-target
scenario. -/
def selectDemoTargets3 : List EntityTarget :=
  (List.range 3).map (fun i =>
    ⟨"clientTarget" ++ toString i, "",
     ⟨⟨"v1", 0, ⟨"running successfully", false, 0⟩⟩, ⟨"v1"⟩⟩⟩)

/-- Rollout state for the three-target scenario with batch percent 34. -/
def selectDemoRollout34 : RolloutState :=
  ⟨"", "v2", "v1", "", ⟨34, 100, 900, 3600⟩, 0⟩

/-- An erroring in-rollout target, mirroring the third phase of
TestMonitorTargets. -/
def durationDemoTarget : EntityTarget :=
  ⟨"clientTarget0", "", ⟨⟨"v1", 0, ⟨"Simulating Failure", true, 1⟩⟩, ⟨"v1"⟩⟩⟩

/-- Rollout state with DurationTimeoutSecs zero, as set by the third phase of
TestMonitorTargets. -/
def durationDemoRollout : RolloutState :=
  ⟨"", "v1", "v1", "", ⟨10, 100, 900, 0⟩, 0⟩

/-- A bucketed view holding the erroring target in the in-rollout bucket. -/
def durationDemoInfo : RolloutInfo :=
  ⟨[durationDemoTarget], [], [durationDemoTarget], [], []⟩

/-- A rollout at rest on its last known good version `v1`. -/
def restingDemoRollout : RolloutState :=
  ⟨"", "v1", "v1", "", DefaultRolloutOptions, 0⟩

/-- Rollout state of TestForceRollingVersion: rolling `v1`, last known good
`v0`, no last known bad. -/
def forceDemoRollout : RolloutState :=
  ⟨"", "v1", "v0", "", DefaultRolloutOptions, 0⟩

/-- A converged, long-stable target: told `v1`, reporting `v1` without error,
with old timestamps. -/
def quietDemoTarget : EntityTarget :=
  ⟨"clientTarget0", "", ⟨⟨"v1", 0, ⟨"running successfully", false, 0⟩⟩, ⟨"v1"⟩⟩⟩

/-- A settled rollout: target, rolling and last known good versions all `v1`. -/
def quietDemoRollout : RolloutState :=
  ⟨"v1", "v1", "v1", "", DefaultRolloutOptions, 0⟩

/-- An empty namespace for the entity creation witness. -/
def emptyDemoNamespace : Namespace :=
  ⟨"TestCreateNamespace", []⟩

/-- Rollout state of TestDetermineCurrentState after the rolling version `v5`
was additionally marked last known bad. -/
def bucketDemoRolloutBad : RolloutState :=
  ⟨"", "v5", "v1", "v5", DefaultRolloutOptions, 0⟩

/-- Claim C4: when merging an incoming ClientState into its EntityTarget,
CurrentVersion.ChangeTimestamp advances if and only if the observed Version
differs from the stored CurrentVersion.Version, and LastMessage.Timestamp
advances if and only if the observed Message or IsError differs from the
stored values; merging a report identical to the stored state leaves the whole
record unchanged. -/
theorem updateEntityTarget_timestamps (now : Nat) (t : EntityTarget) (cs : ClientState)
    (hc : t.State.CurrentVersion.ChangeTimestamp < now)
    (hm : t.State.CurrentVersion.LastMessage.Timestamp < now) :
    ((updateEntityTarget now t cs).State.CurrentVersion.ChangeTimestamp ≠
        t.State.CurrentVersion.ChangeTimestamp ↔
      cs.Version ≠ t.State.CurrentVersion.Version)
    ∧ ((updateEntityTarget now t cs).State.CurrentVersion.LastMessage.Timestamp ≠
        t.State.CurrentVersion.LastMessage.Timestamp ↔
      (cs.Message ≠ t.State.CurrentVersion.LastMessage.Message ∨
        cs.IsError ≠ t.State.CurrentVersion.LastMessage.IsError))
    ∧ (cs.Version = t.State.CurrentVersion.Version →
      cs.Message = t.State.CurrentVersion.LastMessage.Message →
      cs.IsError = t.State.CurrentVersion.LastMessage.IsError →
      updateEntityTarget now t cs = t) := by
  refine ⟨?_, ?_, ?_⟩
  · by_cases hv : cs.Version = t.State.CurrentVersion.Version
    · simp [updateEntityTarget, hv]
    · simp only [updateEntityTarget, if_neg hv]
      constructor
      · intro _
        exact hv
      · intro _
        exact Nat.ne_of_gt hc
  · by_cases hmsg : cs.Message = t.State.CurrentVersion.LastMessage.Message ∧
        cs.IsError = t.State.CurrentVersion.LastMessage.IsError
    · simp [updateEntityTarget, hmsg.1, hmsg.2]
    · rw [Decidable.not_and_iff_or_not] at hmsg
      have hcond : ¬(cs.Message = t.State.CurrentVersion.LastMessage.Message ∧
          cs.IsError = t.State.CurrentVersion.LastMessage.IsError) := by
        rcases hmsg with h | h
        · exact fun hh => h hh.1
        · exact fun hh => h hh.2
      simp only [updateEntityTarget, if_neg hcond]
      constructor
      · intro _
        exact hmsg
      · intro _
        exact Nat.ne_of_gt hm
  · intro hv hmsg herr
    simp [updateEntityTarget, hv, hmsg, herr]

/-- Witness for C4: merging a report with a changed version advances the
change timestamp, and an identical report is a no-op. -/
theorem updateEntityTarget_timestamps_witness :
    ((updateEntityTarget 5 bucketDemoTarget mergeDemoClient).State.CurrentVersion.ChangeTimestamp ≠
      bucketDemoTarget.State.CurrentVersion.ChangeTimestamp)
    ∧ updateEntityTarget 5 bucketDemoTarget
        ⟨"clientTarget0", "", "v1", "running successfully", false⟩ = bucketDemoTarget := by
  constructor
  · exact (updateEntityTarget_timestamps 5 bucketDemoTarget mergeDemoClient
      (by decide) (by decide)).1.mpr (by decide)
  · exact (updateEntityTarget_timestamps 5 bucketDemoTarget
      ⟨"clientTarget0", "", "v1", "running successfully", false⟩
      (by decide) (by decide)).2.2 (by decide) (by decide) (by decide)

/-- Claim C2: updateLastKnownVersions sets last known good to the rolling
version (clearing last known bad if it equals the rolling version) when
nothing failed, nothing is still in rollout, every total target succeeded, and
the rolling version differs from last known good; and it sets last known bad
to the rolling version, leaving last known good unchanged, when at least one
target failed and the success ratio is below SuccessPercent. -/
theorem updateLastKnownVersions_spec (r : RolloutState) (info : RolloutInfo) :
    (info.failedTargets.length = 0 → info.inRolloutTargets.length = 0 →
      info.successTargets.length = info.totalTargets.length →
      r.RollingVersion ≠ r.LastKnownGoodVersion →
      (updateLastKnownVersions r info).LastKnownGoodVersion = r.RollingVersion ∧
      (updateLastKnownVersions r info).LastKnownBadVersion =
        (if r.LastKnownBadVersion = r.RollingVersion then "" else r.LastKnownBadVersion))
    ∧ (0 < info.failedTargets.length →
      info.successTargets.length * 100 < r.Options.SuccessPercent * info.totalTargets.length →
      (updateLastKnownVersions r info).LastKnownBadVersion = r.RollingVersion ∧
      (updateLastKnownVersions r info).LastKnownGoodVersion = r.LastKnownGoodVersion) := by
  constructor
  · intro hf hin hs hne
    rw [updateLastKnownVersions, if_pos ⟨hf, hin, hs⟩, if_neg hne]
    exact ⟨rfl, rfl⟩
  · intro hf hratio
    have hcond : ¬(info.failedTargets.length = 0 ∧ info.inRolloutTargets.length = 0 ∧
        info.successTargets.length = info.totalTargets.length) := by
      intro h
      omega
    rw [updateLastKnownVersions, if_neg hcond, if_pos ⟨hf, hratio⟩]
    exact ⟨rfl, rfl⟩

/-- Witness for C2: on the states of TestUpdateLastKnownVersions, a fully
successful view promotes the rolling version `v2` to last known good, and a
fully failed view marks `v2` last known bad while keeping `v1` good. -/
theorem updateLastKnownVersions_spec_witness :
    ((updateLastKnownVersions lkvDemoRollout lkvDemoSuccess).LastKnownGoodVersion = "v2" ∧
      (updateLastKnownVersions lkvDemoRollout lkvDemoSuccess).LastKnownBadVersion = "") ∧
    ((updateLastKnownVersions lkvDemoRollout lkvDemoFailed).LastKnownBadVersion = "v2" ∧
      (updateLastKnownVersions lkvDemoRollout lkvDemoFailed).LastKnownGoodVersion = "v1") := by
  constructor
  · have h := (updateLastKnownVersions_spec lkvDemoRollout lkvDemoSuccess).1
      (by decide) (by decide) (by decide) (by decide)
    exact ⟨h.1, h.2⟩
  · have h := (updateLastKnownVersions_spec lkvDemoRollout lkvDemoFailed).2
      (by decide) (by decide)
    exact ⟨h.1, h.2⟩

/-- Counterexample for C1: mirroring TestDetermineCurrentState, a target whose
current and target versions are the last known good `v1` is bucketed as
available although its current version differs from the rolling version `v5`
(the claim requires CurrentVersion.Version = RollingVersion for availability);
and once `v5` is marked last known bad, the same target is bucketed as
in-rollout although its target version differs from the rolling version (the
claim requires TargetVersion.Version = RollingVersion for in-rollout). -/
theorem determineCurrentState_claim_counterexample :
    (bucketDemoTarget ∈
        (determineCurrentState bucketDemoRollout
          (createRolloutInfo [bucketDemoTarget])).availableTargets ∧
      bucketDemoTarget.State.CurrentVersion.Version ≠ bucketDemoRollout.RollingVersion)
    ∧ (bucketDemoTarget ∈
        (determineCurrentState bucketDemoRolloutBad
          (createRolloutInfo [bucketDemoTarget])).inRolloutTargets ∧
      bucketDemoTarget.State.TargetVersion.Version ≠ bucketDemoRolloutBad.RollingVersion) := by
  decide

/-- Claim C1 (amended): determineCurrentState buckets a target as in-rollout
exactly when the rolling version is the non-empty last known bad version, or
the target's TargetVersion.Version equals RollingVersion while its
CurrentVersion.Version differs, or the target is erroring; and it buckets a
target as available exactly when the target is not erroring and not in the
in-rollout bucket. -/
theorem determineCurrentState_buckets (r : RolloutState) (targets : List EntityTarget)
    (t : EntityTarget) :
    (t ∈ (determineCurrentState r (createRolloutInfo targets)).inRolloutTargets ↔
      t ∈ targets ∧
        ((r.LastKnownBadVersion ≠ "" ∧ r.RollingVersion = r.LastKnownBadVersion) ∨
          (t.State.TargetVersion.Version = r.RollingVersion ∧
            t.State.CurrentVersion.Version ≠ r.RollingVersion) ∨
          t.State.CurrentVersion.LastMessage.IsError = true))
    ∧ (t ∈ (determineCurrentState r (createRolloutInfo targets)).availableTargets ↔
      t ∈ targets ∧ t.State.CurrentVersion.LastMessage.IsError = false ∧
        t ∉ (determineCurrentState r (createRolloutInfo targets)).inRolloutTargets) := by
  have hiff : ∀ s : EntityTarget, inRolloutTest r s = true ↔
      ((r.LastKnownBadVersion ≠ "" ∧ r.RollingVersion = r.LastKnownBadVersion) ∨
        (s.State.TargetVersion.Version = r.RollingVersion ∧
          s.State.CurrentVersion.Version ≠ r.RollingVersion) ∨
        s.State.CurrentVersion.LastMessage.IsError = true) := by
    intro s
    simp [inRolloutTest, or_assoc]
  constructor
  · rw [determineCurrentState]
    simp only [createRolloutInfo, List.mem_filter]
    rw [hiff t]
  · rw [determineCurrentState]
    simp only [createRolloutInfo, List.mem_filter, Bool.not_eq_true']
    constructor
    · rintro ⟨hmem, htest⟩
      refine ⟨hmem, ?_, ?_⟩
      · simp only [inRolloutTest, Bool.or_eq_false_iff] at htest
        exact htest.2
      · rintro ⟨-, htrue⟩
        rw [htest] at htrue
        cases htrue
    · rintro ⟨hmem, herr, hnotin⟩
      refine ⟨hmem, ?_⟩
      by_contra hne
      have htrue : inRolloutTest r t = true := by
        revert hne
        cases inRolloutTest r t <;> simp
      exact hnotin ⟨hmem, htrue⟩

/-- Counterexample for C5: with 3 targets and BatchPercent 34 the first
selection puts exactly 1 target in rollout (matching the spec's literal
three-target scenario), not the ceiling value 2 demanded by the claim's
formula. -/
theorem selectTargets_ceiling_counterexample :
    (selectTargets selectDemoRollout34
      (determineCurrentState selectDemoRollout34
        (createRolloutInfo selectDemoTargets3))).inRolloutTargets.length = 1
    ∧ (3 * 34 + 99) / 100 = 2
    ∧ batchSize 3 34 ≠ (3 * 34 + 99) / 100 := by
  decide

/-- Claim C5 (amended): batch selection moves candidates into rollout until
the in-rollout count reaches batchSize = max(1, floor(totalTargets *
BatchPercent / 100)) or no candidate remains; with 10 targets and BatchPercent
50 exactly 5 targets receive the rolling version as target version, and with 3
targets and BatchPercent 34 the first selection puts exactly
max(1, floor(3 * 34 / 100)) = 1 target in rollout. -/
theorem selectTargets_batchSize (r : RolloutState) (info : RolloutInfo) :
    ((selectTargets r info).inRolloutTargets.length =
      info.inRolloutTargets.length +
        min (batchSize info.totalTargets.length r.Options.BatchPercent -
              info.inRolloutTargets.length)
            (selectionCandidates r info).length)
    ∧ batchSize 10 50 = 5
    ∧ ((rolloutNewTargets selectDemoRollout
        (selectTargets selectDemoRollout
          (determineCurrentState selectDemoRollout
            (createRolloutInfo selectDemoTargets)))).totalTargets.countP
        (fun t => t.State.TargetVersion.Version == "v2") = 5)
    ∧ batchSize 3 34 = 1
    ∧ ((selectTargets selectDemoRollout34
        (determineCurrentState selectDemoRollout34
          (createRolloutInfo selectDemoTargets3))).inRolloutTargets.length = 1) := by
  refine ⟨?_, by decide, by decide, by decide, by decide⟩
  simp [selectTargets, List.length_take]

/-- Counterexample for C6: with DurationTimeoutSecs zero and no external
monitoring error, the erroring in-rollout target of TestMonitorTargets' third
phase is moved to the failed bucket and does not remain in rollout. -/
theorem monitorTargets_duration_counterexample :
    durationDemoRollout.Options.DurationTimeoutSecs = 0
    ∧ (monitorTargets 1 durationDemoRollout false durationDemoInfo).failedTargets =
        [durationDemoTarget]
    ∧ (monitorTargets 1 durationDemoRollout false durationDemoInfo).inRolloutTargets = [] := by
  decide

/-- Claim C6 (amended): when DurationTimeoutSecs is zero the duration gate is
always satisfied, so monitorTargets immediately moves every erroring
in-rollout target to the failed bucket even without an external monitoring
error; a zero duration timeout does not disable duration-based failure. -/
theorem monitorTargets_duration_zero (now : Nat) (r : RolloutState) (info : RolloutInfo)
    (t : EntityTarget) (hd : r.Options.DurationTimeoutSecs = 0)
    (ht : t ∈ info.inRolloutTargets)
    (he : t.State.CurrentVersion.LastMessage.IsError = true) :
    t ∈ (monitorTargets now r false info).failedTargets := by
  have hpool : t ∈ info.availableTargets ++ info.inRolloutTargets :=
    List.mem_append_right _ ht
  have hsucc : successTest now r t = false := by
    simp [successTest, he]
  have hfail : failureTest now r false t = true := by
    simp [failureTest, he, hd]
  rw [monitorTargets]
  simp only [List.mem_append]
  right
  refine List.mem_filter.mpr ⟨List.mem_filter.mpr ⟨hpool, ?_⟩, hfail⟩
  simp [hsucc]

/-- Witness for C6: applied to the concrete erroring in-rollout target with
DurationTimeoutSecs zero. -/
theorem monitorTargets_duration_zero_witness :
    durationDemoTarget ∈
      (monitorTargets 1 durationDemoRollout false durationDemoInfo).failedTargets :=
  monitorTargets_duration_zero 1 durationDemoRollout durationDemoInfo durationDemoTarget
    (by decide) (by decide) (by decide)

/-- Claim C9: for every rollout with rolling version different from the
requested version v, setTargetVersion with force succeeds, sets the target
version to v and marks the previous rolling version last known bad, after
which updateRollingVersion advances the rolling version to v. -/
theorem setTargetVersion_force (r : RolloutState) (v : String) (now : Nat)
    (info : RolloutInfo) (h : v ≠ r.RollingVersion) :
    setTargetVersion r v true =
      Except.ok { r with TargetVersion := v, LastKnownBadVersion := r.RollingVersion }
    ∧ (updateRollingVersion now
        { r with TargetVersion := v, LastKnownBadVersion := r.RollingVersion }
        info).RollingVersion = v := by
  constructor
  · rw [setTargetVersion]
    rw [if_neg (by simp)]
    rw [if_pos ⟨rfl, Ne.symm h⟩]
  · have heff : effectiveTargetVersion
        { r with TargetVersion := v, LastKnownBadVersion := r.RollingVersion } = v := by
      rw [effectiveTargetVersion]
      simp only
      rw [if_neg h]
    rw [updateRollingVersion, heff]
    rw [if_neg (Ne.symm h)]
    rw [if_pos (Or.inr (Or.inl rfl))]

/-- Witness for C9: mirroring TestForceRollingVersion, forcing target version
`v2` while `v1` is rolling marks `v1` last known bad and lets the rolling
version advance to `v2`. -/
theorem setTargetVersion_force_witness :
    setTargetVersion forceDemoRollout "v2" true =
      Except.ok { forceDemoRollout with
        TargetVersion := "v2", LastKnownBadVersion := "v1" }
    ∧ (updateRollingVersion 5
        { forceDemoRollout with TargetVersion := "v2", LastKnownBadVersion := "v1" }
        (createRolloutInfo selectDemoTargets3)).RollingVersion = "v2" :=
  setTargetVersion_force forceDemoRollout "v2" 5 (createRolloutInfo selectDemoTargets3)
    (by decide)

/-- updateRollingVersion never changes the last known good and last known bad
markers. -/
theorem updateRollingVersion_markers (now : Nat) (r : RolloutState) (info : RolloutInfo) :
    (updateRollingVersion now r info).LastKnownGoodVersion = r.LastKnownGoodVersion
    ∧ (updateRollingVersion now r info).LastKnownBadVersion = r.LastKnownBadVersion := by
  rw [updateRollingVersion]
  by_cases h1 : r.RollingVersion = effectiveTargetVersion r
  · rw [if_pos h1]
    exact ⟨rfl, rfl⟩
  · rw [if_neg h1]
    by_cases h2 : r.RollingVersion = r.LastKnownGoodVersion ∨
        r.RollingVersion = r.LastKnownBadVersion ∨
        (info.failedTargets.length = 0 ∧ info.inRolloutTargets.length = 0 ∧
          info.successTargets.length = info.totalTargets.length)
    · rw [if_pos h2]
      exact ⟨rfl, rfl⟩
    · rw [if_neg h2]
      exact ⟨rfl, rfl⟩

/-- The distinctness invariant transports along equality of the two markers. -/
theorem lkgLkbDistinct_of_eq (a b : RolloutState)
    (hg : a.LastKnownGoodVersion = b.LastKnownGoodVersion)
    (hb : a.LastKnownBadVersion = b.LastKnownBadVersion)
    (h : lkgLkbDistinct b) : lkgLkbDistinct a := by
  intro h1 h2
  rw [hg] at h1 ⊢
  rw [hb] at h2 ⊢
  exact h h1 h2

/-- updateLastKnownVersions keeps last known good and last known bad distinct,
provided the rolling version differs from last known good. -/
theorem updateLastKnownVersions_distinct (r : RolloutState) (info : RolloutInfo)
    (hinv : lkgLkbDistinct r) (hne : r.RollingVersion ≠ r.LastKnownGoodVersion) :
    lkgLkbDistinct (updateLastKnownVersions r info) := by
  by_cases h1 : info.failedTargets.length = 0 ∧ info.inRolloutTargets.length = 0 ∧
      info.successTargets.length = info.totalTargets.length
  · rw [updateLastKnownVersions, if_pos h1, if_neg hne]
    by_cases h2 : r.LastKnownBadVersion = r.RollingVersion
    · rw [if_pos h2]
      intro _ hb
      exact absurd rfl hb
    · rw [if_neg h2]
      intro _ _ hcontra
      exact h2 hcontra.symm
  · rw [updateLastKnownVersions, if_neg h1]
    by_cases h2 : 0 < info.failedTargets.length ∧
        info.successTargets.length * 100 < r.Options.SuccessPercent * info.totalTargets.length
    · rw [if_pos h2]
      intro _ _ hcontra
      exact hne hcontra.symm
    · rw [if_neg h2]
      exact hinv

/-- Counterexample for C7: on a rollout resting on its last known good version
`v1`, setTargetVersion with force to `v2` marks `v1` last known bad, leaving
last known good and last known bad equal and non-empty. -/
theorem lkgLkb_claim_counterexample :
    setTargetVersion restingDemoRollout "v2" true =
      Except.ok (⟨"v2", "v1", "v1", "v1", DefaultRolloutOptions, 0⟩ : RolloutState)
    ∧ (⟨"v2", "v1", "v1", "v1", DefaultRolloutOptions, 0⟩ : RolloutState).LastKnownGoodVersion =
      (⟨"v2", "v1", "v1", "v1", DefaultRolloutOptions, 0⟩ : RolloutState).LastKnownBadVersion
    ∧ (⟨"v2", "v1", "v1", "v1", DefaultRolloutOptions, 0⟩ : RolloutState).LastKnownGoodVersion ≠ "" := by
  refine ⟨rfl, rfl, by decide⟩

/-- Claim C7 (amended): after setTargetVersion (with or without force),
updateLastKnownVersions, and an orchestrate tick, last known good and last
known bad remain distinct whenever both are non-empty, provided the rolling
version differs from last known good when the operation runs; without that
proviso a forced target change or a failure on the resting version can mark
the last known good version itself as bad. -/
theorem lkgLkb_invariant_preserved (r : RolloutState) (v : String) (force : Bool)
    (info : RolloutInfo) (now : Nat) (targets : List EntityTarget)
    (clients : List ClientState) (hinv : lkgLkbDistinct r)
    (hne : r.RollingVersion ≠ r.LastKnownGoodVersion) :
    (∀ r2, setTargetVersion r v force = Except.ok r2 → lkgLkbDistinct r2)
    ∧ lkgLkbDistinct (updateLastKnownVersions r info)
    ∧ lkgLkbDistinct (orchestrateTick now r targets clients).rollout := by
  refine ⟨?_, updateLastKnownVersions_distinct r info hinv hne, ?_⟩
  · intro r2 h2
    rw [setTargetVersion] at h2
    by_cases hcond : force = false ∧ v = r.LastKnownBadVersion ∧ v ≠ ""
    · rw [if_pos hcond] at h2
      cases h2
    · rw [if_neg hcond] at h2
      by_cases hforce : force = true ∧ r.RollingVersion ≠ v
      · rw [if_pos hforce] at h2
        injection h2 with h3
        subst h3
        intro _ _ hcontra
        exact hne hcontra.symm
      · rw [if_neg hforce] at h2
        injection h2 with h3
        subst h3
        exact hinv
  · have hmark := updateRollingVersion_markers now
      (updateLastKnownVersions r
        (monitorTargets now r false
          (determineCurrentState r
            (createRolloutInfo (updateEntityTargets now targets clients)))))
      (monitorTargets now r false
        (determineCurrentState r
          (createRolloutInfo (updateEntityTargets now targets clients))))
    have hlkv := updateLastKnownVersions_distinct r
      (monitorTargets now r false
        (determineCurrentState r
          (createRolloutInfo (updateEntityTargets now targets clients)))) hinv hne
    exact lkgLkbDistinct_of_eq _ _ hmark.1 hmark.2 hlkv

/-- Witness for C7: on the rollout of TestUpdateLastKnownVersions (rolling
`v2`, last known good `v1`), a fully failed view marks `v2` bad while the
invariant still holds. -/
theorem lkgLkb_invariant_preserved_witness :
    lkgLkbDistinct (updateLastKnownVersions lkvDemoRollout lkvDemoFailed)
    ∧ (updateLastKnownVersions lkvDemoRollout lkvDemoFailed).LastKnownGoodVersion = "v1"
    ∧ (updateLastKnownVersions lkvDemoRollout lkvDemoFailed).LastKnownBadVersion = "v2" := by
  refine ⟨(lkgLkb_invariant_preserved lkvDemoRollout "v3" false lkvDemoFailed 0 [] []
    (by intro h1 h2; decide) (by decide)).2.1, by decide, by decide⟩

/-- Counterexample for C3: a tick on a rollout whose TargetVersion equals the
non-empty LastKnownGoodVersion `v1` still answers `v2` for a target whose
persisted target version is `v2`; equality of rollout-level TargetVersion and
LKG does not make every response version equal LKG. -/
theorem returnClientState_lkg_counterexample :
    staleDemoRollout.TargetVersion = staleDemoRollout.LastKnownGoodVersion
    ∧ staleDemoRollout.LastKnownGoodVersion ≠ ""
    ∧ ((orchestrateTick 1000 staleDemoRollout [staleDemoTarget] []).response.map
        (fun c => c.Version)) = ["v2"]
    ∧ ("v2" : String) ≠ staleDemoRollout.LastKnownGoodVersion := by
  decide

/-- Claim C3 (amended): the response of a tick is built from the post-tick
persisted targets, with each ClientState's Version equal to that target's
persisted TargetVersion.Version; in particular, after setAllLastKnownGood
(which assigns the rolling version as every target's target version and marks
it last known good) the response version for every target equals the last
known good version. -/
theorem returnClientState_versions (now : Nat) (r : RolloutState)
    (targets : List EntityTarget) (clients : List ClientState) :
    ((orchestrateTick now r targets clients).response =
      returnClientState (orchestrateTick now r targets clients).targets)
    ∧ (∀ ts : List EntityTarget, (returnClientState ts).map (fun c => c.Version) =
        ts.map (fun t => t.State.TargetVersion.Version))
    ∧ (∀ rr : RolloutState, ∀ ts : List EntityTarget,
        (returnClientState (setAllLastKnownGood rr ts).2).map (fun c => c.Version) =
          List.replicate ts.length (setAllLastKnownGood rr ts).1.LastKnownGoodVersion) := by
  refine ⟨rfl, ?_, ?_⟩
  · intro ts
    simp [returnClientState]
  · intro rr ts
    simp only [returnClientState, setAllLastKnownGood, List.map_map]
    have hconst : ((fun c : ClientState => c.Version) ∘
        (fun t : EntityTarget =>
          (⟨t.Name, t.Group, t.State.TargetVersion.Version,
            t.State.CurrentVersion.LastMessage.Message,
            t.State.CurrentVersion.LastMessage.IsError⟩ : ClientState)) ∘
          assignTargetVersion rr.RollingVersion) =
        fun _ : EntityTarget => rr.RollingVersion := by
      funext t
      rfl
    rw [hconst, List.map_const']

/-- Searching an appended list starts over on the suffix when the prefix has
no match. -/
theorem find?_append_of_none {α : Type} (p : α → Bool) (l1 l2 : List α)
    (h : l1.find? p = none) : (l1 ++ l2).find? p = l2.find? p := by
  induction l1 with
  | nil => rfl
  | cons a l ih =>
    rw [List.find?_cons] at h
    rw [List.cons_append, List.find?_cons]
    cases hp : p a with
    | false =>
      rw [hp] at h
      exact ih h
    | true =>
      rw [hp] at h
      cases h

/-- Claim C10: findorCreateEntity is idempotent and non-duplicating: the
returned entity has the requested name; if the namespace held at most one
entity with that name it holds exactly one afterwards; and a repeated call
returns the same namespace and the same entity - with its rollout state
intact - rather than a fresh one. -/
theorem findorCreateEntity_spec (n : Namespace) (entityName : String)
    (h : n.entities.countP (fun e => e.Name == entityName) ≤ 1) :
    (findorCreateEntity n entityName).2.Name = entityName
    ∧ (findorCreateEntity n entityName).1.entities.countP
        (fun e => e.Name == entityName) = 1
    ∧ findorCreateEntity (findorCreateEntity n entityName).1 entityName =
        findorCreateEntity n entityName := by
  cases hfind : n.entities.find? (fun e => e.Name == entityName) with
  | some e =>
    have hp := List.find?_some hfind
    have hname : e.Name = entityName := by simpa using hp
    have hmem : e ∈ n.entities := List.mem_of_find?_eq_some hfind
    have hpos : 0 < n.entities.countP (fun x => x.Name == entityName) :=
      List.countP_pos_iff.mpr ⟨e, hmem, hp⟩
    have hx : findorCreateEntity n entityName = (n, e) := by
      rw [findorCreateEntity, hfind]
    refine ⟨?_, ?_, ?_⟩
    · rw [hx]
      exact hname
    · rw [hx]
      show n.entities.countP (fun x => x.Name == entityName) = 1
      omega
    · rw [hx]
      exact hx
  | none =>
    have hzero : n.entities.countP (fun x => x.Name == entityName) = 0 := by
      rw [List.countP_eq_zero]
      intro a ha
      exact List.find?_eq_none.mp hfind a ha
    have hnew : ((newEntity entityName).Name == entityName) = true := by
      simp [newEntity]
    have hx : findorCreateEntity n entityName =
        ({ n with entities := n.entities ++ [newEntity entityName] }, newEntity entityName) := by
      rw [findorCreateEntity, hfind]
    have hfind2 : (n.entities ++ [newEntity entityName]).find?
        (fun e => e.Name == entityName) = some (newEntity entityName) := by
      rw [find?_append_of_none _ _ _ hfind, List.find?_cons, hnew]
    refine ⟨?_, ?_, ?_⟩
    · rw [hx]
      exact rfl
    · rw [hx]
      simp only [List.countP_append, hzero]
      rw [List.countP_singleton, if_pos hnew]
    · rw [hx]
      rw [findorCreateEntity]
      rw [show ({ n with entities := n.entities ++ [newEntity entityName] } : Namespace).entities =
        n.entities ++ [newEntity entityName] from rfl]
      rw [hfind2]

/-- Witness for C10: creating then re-finding an entity in an empty namespace
yields the requested name, a single entity, and an idempotent second call. -/
theorem findorCreateEntity_spec_witness :
    (findorCreateEntity emptyDemoNamespace "DummyEntityName").2.Name = "DummyEntityName"
    ∧ (findorCreateEntity emptyDemoNamespace "DummyEntityName").1.entities.countP
        (fun e => e.Name == "DummyEntityName") = 1
    ∧ findorCreateEntity (findorCreateEntity emptyDemoNamespace "DummyEntityName").1
        "DummyEntityName" = findorCreateEntity emptyDemoNamespace "DummyEntityName" :=
  findorCreateEntity_spec emptyDemoNamespace "DummyEntityName" (by decide)

/-- Selecting targets appends the taken candidates to the in-rollout bucket. -/
theorem selectTargets_inRollout_eq (r : RolloutState) (info : RolloutInfo) :
    (selectTargets r info).inRolloutTargets =
      info.inRolloutTargets ++ (selectionCandidates r info).take
        (batchSize info.totalTargets.length r.Options.BatchPercent -
          info.inRolloutTargets.length) :=
  rfl

/-- Merging the echo of a converged target's own state back into it is a
no-op. -/
theorem updateEntityTarget_echo (now : Nat) (t : EntityTarget)
    (h : t.State.TargetVersion.Version = t.State.CurrentVersion.Version) :
    updateEntityTarget now t
      ⟨t.Name, t.Group, t.State.TargetVersion.Version,
       t.State.CurrentVersion.LastMessage.Message,
       t.State.CurrentVersion.LastMessage.IsError⟩ = t := by
  simp [updateEntityTarget, h]

/-- In a target list with no duplicate (group, name) keys, equal keys imply
equal targets. -/
theorem eq_of_keys_eq (targets : List EntityTarget)
    (hkeys : (targets.map (fun t => (t.Group, t.Name))).Nodup)
    {a b : EntityTarget} (ha : a ∈ targets) (hb : b ∈ targets)
    (hg : a.Group = b.Group) (hn : a.Name = b.Name) : a = b :=
  List.inj_on_of_nodup_map hkeys ha hb (by rw [Prod.mk.injEq]; exact ⟨hg, hn⟩)

/-- One merge step of updateEntityTargets is a no-op when fed the echo of some
converged target of a key-distinct list. -/
theorem updateEntityTargets_echo_step (now : Nat) (targets : List EntityTarget)
    (hkeys : (targets.map (fun t => (t.Group, t.Name))).Nodup)
    (hconv : ∀ t ∈ targets, t.State.TargetVersion.Version = t.State.CurrentVersion.Version)
    (cs : ClientState) (hcs : cs ∈ returnClientState targets) :
    (if targets.any (matchesClient cs) then
      targets.map (fun t => if matchesClient cs t then updateEntityTarget now t cs else t)
    else targets ++ [createEntityTarget now cs]) = targets := by
  obtain ⟨t0, ht0, hcs_eq⟩ := List.mem_map.mp hcs
  subst hcs_eq
  have hany : targets.any (matchesClient
      ⟨t0.Name, t0.Group, t0.State.TargetVersion.Version,
       t0.State.CurrentVersion.LastMessage.Message,
       t0.State.CurrentVersion.LastMessage.IsError⟩) = true :=
    List.any_eq_true.mpr ⟨t0, ht0, by simp [matchesClient]⟩
  rw [if_pos hany]
  conv_rhs => rw [← List.map_id targets]
  apply List.map_congr_left
  intro t ht
  by_cases hm : matchesClient
      ⟨t0.Name, t0.Group, t0.State.TargetVersion.Version,
       t0.State.CurrentVersion.LastMessage.Message,
       t0.State.CurrentVersion.LastMessage.IsError⟩ t = true
  · rw [if_pos hm]
    rw [matchesClient, Bool.and_eq_true, beq_iff_eq, beq_iff_eq] at hm
    have hteq : t = t0 := eq_of_keys_eq targets hkeys ht ht0 hm.2 hm.1
    subst hteq
    exact updateEntityTarget_echo now t (hconv t ht)
  · rw [if_neg hm]
    rfl

/-- Feeding the full echo of a converged, key-distinct target list back
through updateEntityTargets changes nothing. -/
theorem updateEntityTargets_echo (now : Nat) (targets : List EntityTarget)
    (hkeys : (targets.map (fun t => (t.Group, t.Name))).Nodup)
    (hconv : ∀ t ∈ targets, t.State.TargetVersion.Version = t.State.CurrentVersion.Version) :
    updateEntityTargets now targets (returnClientState targets) = targets := by
  rw [updateEntityTargets]
  have haux : ∀ cl : List ClientState, (∀ cs ∈ cl, cs ∈ returnClientState targets) →
      cl.foldl (fun acc cs =>
        if acc.any (matchesClient cs) then
          acc.map (fun t => if matchesClient cs t then updateEntityTarget now t cs else t)
        else acc ++ [createEntityTarget now cs]) targets = targets := by
    intro cl
    induction cl with
    | nil => intro _; rfl
    | cons cs cl ih =>
      intro hall
      rw [List.foldl_cons]
      rw [updateEntityTargets_echo_step now targets hkeys hconv cs
        (hall cs (List.mem_cons_self cs cl))]
      exact ih (fun c hc => hall c (List.mem_cons_of_mem _ hc))
  exact haux (returnClientState targets) (fun c hc => hc)

/-- Claim C8: Orchestrate is idempotent on a quiescent state: when the fleet
is converged (every target's persisted target version equals its reported
current version, with distinct target keys) and a tick changes neither the
rollout state nor the targets and writes nothing, then feeding that tick's
response straight back produces the identical response, reports no state
change, and again writes nothing to the store. -/
theorem orchestrate_idempotent (now : Nat) (r : RolloutState)
    (targets : List EntityTarget) (clients resp : List ClientState)
    (hkeys : (targets.map (fun t => (t.Group, t.Name))).Nodup)
    (hconv : ∀ t ∈ targets, t.State.TargetVersion.Version = t.State.CurrentVersion.Version)
    (h : orchestrateTick now r targets clients = ⟨resp, r, targets, false⟩) :
    orchestrateTick now r targets resp = ⟨resp, r, targets, false⟩ := by
  have h' := h
  simp only [orchestrateTick, orchestrateFrom, TickResult.mk.injEq] at h'
  obtain ⟨hresp, -, htg2, hw⟩ := h'
  rw [Bool.or_eq_false_iff, Bool.or_eq_false_iff] at hw
  obtain ⟨⟨hchg, -⟩, -⟩ := hw
  rw [isStateChanged, Bool.or_eq_false_iff] at hchg
  obtain ⟨-, hinr⟩ := hchg
  rw [Bool.not_eq_false'] at hinr
  have hnil := List.isEmpty_iff.mp hinr
  rw [selectTargets_inRollout_eq] at hnil
  obtain ⟨-, hmoved⟩ := List.append_eq_nil.mp hnil
  rw [hmoved] at htg2 hresp
  simp only [List.any_nil, Bool.false_eq_true, if_false, List.map_id'] at htg2 hresp
  rw [htg2] at hresp
  have hecho : updateEntityTargets now targets resp = targets := by
    rw [← hresp]
    exact updateEntityTargets_echo now targets hkeys hconv
  rw [orchestrateTick, hecho]
  rw [orchestrateTick, htg2] at h
  exact h

/-- Witness for C8: a settled single-target fleet at `v1` with an old stable
report; the tick fed with this fleet's own response is a no-op, and so is the
tick fed with the response of that tick. -/
theorem orchestrate_idempotent_witness :
    orchestrateTick 2000 quietDemoRollout [quietDemoTarget]
      (returnClientState [quietDemoTarget]) =
      ⟨returnClientState [quietDemoTarget], quietDemoRollout, [quietDemoTarget], false⟩ :=
  orchestrate_idempotent 2000 quietDemoRollout [quietDemoTarget]
    (returnClientState [quietDemoTarget]) (returnClientState [quietDemoTarget])
    (by decide) (by decide) (by decide)
